import Mathlib

/-!
Verification of the Seq2Slate policy-gradient trainer
(`src/ml/rl/training/ranking/seq2slate_trainer.py`).

One-dimensional tensors are modelled as `List ℚ`; `detach`, `.cpu()` and
`.numpy()` are value-preserving and modelled as the identity on values.
Python exceptions are modelled by an explicit error type, returned together
with the trainer state as mutated up to the point of the failure (Python
leaves earlier in-place mutations visible when an exception escapes).
-/

namespace Seq2Slate

/-- Errors a `train` call can raise.  `assertionError` is a failing Python
`assert` (the spec's `PreconditionError`); `shapeError` is the runtime error
PyTorch raises for non-broadcastable element-wise operands; `typeError` is
the Python `TypeError` from applying a tensor operator to `None`;
`zeroDivisionError` is Python's error for `1.0 / 0`. -/
inductive PyErr where
  | assertionError
  | shapeError
  | typeError
  | zeroDivisionError
deriving DecidableEq, Repr

/-- Element-wise binary operation on two 1-D tensors with PyTorch
broadcasting: equal lengths act pointwise, a length-1 operand is broadcast
against the other, and any other pair of lengths fails. -/
def broadcast2 (f : ℚ → ℚ → ℚ) (xs ys : List ℚ) : Option (List ℚ) :=
  if xs.length = ys.length then some (List.zipWith f xs ys)
  else if ys.length = 1 then some (xs.map fun x => f x (ys.headD 0))
  else if xs.length = 1 then some (ys.map fun y => f (xs.headD 0) y)
  else none

/-- Broadcast subtraction, `a - b` on tensors. -/
def tsub : List ℚ → List ℚ → Option (List ℚ) := broadcast2 (· - ·)

/-- Broadcast multiplication, `a * b` on tensors. -/
def tmul : List ℚ → List ℚ → Option (List ℚ) := broadcast2 (· * ·)

/-- Broadcast division, `a / b` on tensors. -/
def tdiv : List ℚ → List ℚ → Option (List ℚ) := broadcast2 (· / ·)

/-- The fields of `rlt.PreprocessedRankingInput` read by
`Seq2SlateTrainer.train`: `state.float_features` (the 2-D context-feature
matrix whose first dimension is the batch size), the target-slate encoding
consumed by the two networks (opaque pass-through), and the optional 1-D
tensors `slate_reward` and `tgt_out_probs` (`None` is `none`). -/
structure PreprocessedRankingInput where
  float_features : List (List ℚ)
  tgt_seq : List (List ℚ)
  slate_reward : Option (List ℚ)
  tgt_out_probs : Option (List ℚ)
deriving DecidableEq, Repr

/-- Modelled from the spec: the part of the batch the two networks consume.
`BaselineNet` and `Seq2SlateTransformerNet` live in
`ml.rl.models.seq2slate`, which is not under `src/`; spec section 3 says the
policy network maps state plus target slate to a per-episode log-probability
and the baseline network maps the per-episode context to a value estimate,
so neither reads `slate_reward` or `tgt_out_probs`. -/
structure NetInput where
  float_features : List (List ℚ)
  tgt_seq : List (List ℚ)
deriving DecidableEq, Repr

/-- The network-visible view of a batch. -/
def PreprocessedRankingInput.netInput (ti : PreprocessedRankingInput) : NetInput :=
  ⟨ti.float_features, ti.tgt_seq⟩

/-- Modelled from the spec: the opaque differentiable collaborators and
numeric primitives around the trainer (`ml.rl.models.seq2slate` is not under
`src/`).  `baselineForward p inp` is `baseline_net(training_input).squeeze()`
(one scalar per episode) under baseline parameters `p`; `policyLogProbs p inp`
is `seq2slate_net(training_input, mode=LOG_PROB_MODE).log_probs` under policy
parameters `p`; `logProbsRequiresGrad` is the `requires_grad` flag of that
output; `pexp` is the `torch.exp` scalar primitive of the tensor library;
`baselineUpdate` and `policyUpdate` are the parameter changes made by one
`zero_grad` / `backward` / `step` cycle of the Adam optimizer that the
constructor bound to exactly that network's parameters (each reads only its
own network's parameters plus the values the corresponding loss depends on). -/
structure Oracle where
  baselineForward : List ℚ → NetInput → List ℚ
  policyLogProbs : List ℚ → NetInput → List ℚ
  logProbsRequiresGrad : Bool
  pexp : ℚ → ℚ
  baselineUpdate : List ℚ → NetInput → List ℚ → List ℚ
  policyUpdate : List ℚ → NetInput → List ℚ → List ℚ → List ℚ

/-- Mutable state owned by a `Seq2SlateTrainer`: the two networks' parameter
vectors (mutated in place by the optimizers), the `minibatch` step counter,
and how many times each optimizer's `step()` has run (observable optimizer
state, used to express "the optimizer has (not) been stepped"). -/
structure TrainerState where
  baselineParams : List ℚ
  policyParams : List ℚ
  minibatch : ℕ
  baselineOptSteps : ℕ
  rlOptSteps : ℕ
deriving DecidableEq, Repr

/-- `Seq2SlateTrainer.__init__`: stores the networks (here: their parameter
vectors), sets `self.minibatch = 0` and constructs the two Adam optimizers,
each bound to one network's parameters and not yet stepped. -/
def initTrainer (baselineParams policyParams : List ℚ) : TrainerState :=
  { baselineParams := baselineParams
    policyParams := policyParams
    minibatch := 0
    baselineOptSteps := 0
    rlOptSteps := 0 }

/-- `self.baseline_opt.zero_grad(); baseline_loss.backward();
self.baseline_opt.step()` — updates only the baseline parameters the
optimizer was bound to at construction. -/
def baselineOptStep (o : Oracle) (s : TrainerState) (inp : NetInput)
    (reward : List ℚ) : TrainerState :=
  { s with
    baselineParams := o.baselineUpdate s.baselineParams inp reward
    baselineOptSteps := s.baselineOptSteps + 1 }

/-- `self.rl_opt.zero_grad(); rl_loss.backward(); self.rl_opt.step()` —
updates only the policy parameters the optimizer was bound to at
construction.  The loss value the gradient flows from is determined by the
policy parameters, the network input, the (detached) importance weights and
the (detached) `reward - b` advantage, which are passed explicitly. -/
def rlOptStep (o : Oracle) (s : TrainerState) (inp : NetInput)
    (impSampling rewardMinusB : List ℚ) : TrainerState :=
  { s with
    policyParams := o.policyUpdate s.policyParams inp impSampling rewardMinusB
    rlOptSteps := s.rlOptSteps + 1 }

/-- Result tuple of a successful `train` call:
`(log_probs.detach(), advantage, rl_loss, baseline_loss)`. -/
structure TrainResult where
  log_probs : List ℚ
  advantage : List ℚ
  rl_loss : ℚ
  baseline_loss : ℚ
deriving DecidableEq, Repr

/-- Tail of `Seq2SlateTrainer.train` from the importance-sampling weight on:
`batch_loss = -importance_sampling * log_probs * (reward - b)`,
`rl_loss = 1.0 / batch_size * torch.sum(batch_loss)`, the policy optimizer
cycle, `advantage = reward - b`, `self.minibatch += 1`, and the return. -/
def finishTrain (o : Oracle) (s1 : TrainerState) (inp : NetInput)
    (batch_size : ℕ) (baseline_loss : ℚ)
    (reward b log_probs impSampling : List ℚ) :
    Except PyErr TrainResult × TrainerState :=
  match tmul (impSampling.map Neg.neg) log_probs with
  | none => (Except.error PyErr.shapeError, s1)
  | some negISlp =>
    match tsub reward b with
    | none => (Except.error PyErr.shapeError, s1)
    | some rewardMinusB =>
      match tmul negISlp rewardMinusB with
      | none => (Except.error PyErr.shapeError, s1)
      | some batch_loss =>
        let rl_loss := 1 / (batch_size : ℚ) * batch_loss.sum
        let s2 := rlOptStep o s1 inp impSampling rewardMinusB
        let s3 := { s2 with minibatch := s2.minibatch + 1 }
        (Except.ok
          { log_probs := log_probs
            advantage := rewardMinusB
            rl_loss := rl_loss
            baseline_loss := baseline_loss }, s3)

/-- Shallow embedding of `Seq2SlateTrainer.train` (seq2slate_trainer.py,
lines 42-95), for a trainer whose `parameters.on_policy` flag is
`on_policy`.  The two `assert`s on the batch's Python type are discharged by
the typing of the embedding; `use_gpu` only moves the on-policy constant
tensor to the accelerator, which does not change its value, so it is not a
parameter.  After `b = b.detach()` the check `not b.requires_grad` always
holds, so the gradient-requirement assert reduces to
`log_probs.requires_grad`. -/
def train (o : Oracle) (on_policy : Bool) (s : TrainerState)
    (ti : PreprocessedRankingInput) : Except PyErr TrainResult × TrainerState :=
  match ti.slate_reward with
  | none => (Except.error PyErr.assertionError, s)
  | some reward =>
    let batch_size := ti.float_features.length
    let b := o.baselineForward s.baselineParams ti.netInput
    if batch_size = 0 then (Except.error PyErr.zeroDivisionError, s)
    else
      match tsub b reward with
      | none => (Except.error PyErr.shapeError, s)
      | some diff =>
        let baseline_loss := 1 / (batch_size : ℚ) * (diff.map fun x => x ^ 2).sum
        let s1 := baselineOptStep o s ti.netInput reward
        let log_probs := o.policyLogProbs s1.policyParams ti.netInput
        if b.length = reward.length ∧ reward.length = log_probs.length then
          if o.logProbsRequiresGrad then
            if on_policy then
              finishTrain o s1 ti.netInput batch_size baseline_loss reward b
                log_probs [1]
            else
              match ti.tgt_out_probs with
              | none => (Except.error PyErr.typeError, s1)
              | some probs =>
                match tdiv (log_probs.map o.pexp) probs with
                | none => (Except.error PyErr.shapeError, s1)
                | some impSampling =>
                  finishTrain o s1 ti.netInput batch_size baseline_loss reward b
                    log_probs impSampling
          else (Except.error PyErr.assertionError, s1)
        else (Except.error PyErr.assertionError, s1)

/-- The `rl_loss` of a successful call. -/
def rlLossOf (x : Except PyErr TrainResult × TrainerState) : Option ℚ :=
  match x.1 with
  | Except.ok r => some r.rl_loss
  | Except.error _ => none

/-- The `baseline_loss` of a successful call. -/
def baselineLossOf (x : Except PyErr TrainResult × TrainerState) : Option ℚ :=
  match x.1 with
  | Except.ok r => some r.baseline_loss
  | Except.error _ => none

/-- The `advantage` of a successful call. -/
def advantageOf (x : Except PyErr TrainResult × TrainerState) :
    Option (List ℚ) :=
  match x.1 with
  | Except.ok r => some r.advantage
  | Except.error _ => none

/-- Whether a call returned normally. -/
def isOk : Except PyErr TrainResult → Bool
  | Except.ok _ => true
  | Except.error _ => false

/-- Pointwise ternary zip, for stating per-episode loss formulas. -/
def zipWith3 (f : ℚ → ℚ → ℚ → ℚ) : List ℚ → List ℚ → List ℚ → List ℚ
  | x :: xs, y :: ys, z :: zs => f x y z :: zipWith3 f xs ys zs
  | _, _, _ => []

/-- Arithmetic mean of a list of rationals. -/
def listMean (xs : List ℚ) : ℚ := xs.sum / (xs.length : ℚ)

/-- Spec-side formula: the off-policy importance weights,
`exp(log_probs.detach()) / tgt_out_probs`, element-wise per episode. -/
def importanceWeights (o : Oracle) (log_probs probs : List ℚ) : List ℚ :=
  List.zipWith (fun l q => o.pexp l / q) log_probs probs

/-- Spec-side formula: the REINFORCE loss, the mean over the batch of
`-w_i * log_prob_i * advantage_i`. -/
def reinforceLoss (w lp adv : List ℚ) : ℚ :=
  listMean (zipWith3 (fun wi li ai => -(wi * li * ai)) w lp adv)

theorem broadcast2_length_eq (f : ℚ → ℚ → ℚ) {xs ys : List ℚ}
    (h : xs.length = ys.length) :
    broadcast2 f xs ys = some (List.zipWith f xs ys) := by
  simp [broadcast2, h]

theorem broadcast2_singleton_left (f : ℚ → ℚ → ℚ) (a : ℚ) (ys : List ℚ) :
    broadcast2 f [a] ys = some (ys.map fun y => f a y) := by
  match ys with
  | [] => simp [broadcast2]
  | [y] => simp [broadcast2]
  | y :: z :: t => simp [broadcast2]

theorem zipWith3_nil_left (f : ℚ → ℚ → ℚ → ℚ) (ys zs : List ℚ) :
    zipWith3 f [] ys zs = [] := by
  cases ys <;> cases zs <;> rfl

theorem zipWith3_length (f : ℚ → ℚ → ℚ → ℚ) (xs ys zs : List ℚ) :
    (zipWith3 f xs ys zs).length = min xs.length (min ys.length zs.length) := by
  induction xs generalizing ys zs with
  | nil => cases ys <;> cases zs <;> simp [zipWith3]
  | cons a t ih =>
    cases ys with
    | nil => cases zs <;> simp [zipWith3]
    | cons b u =>
      cases zs with
      | nil => simp [zipWith3]
      | cons c v =>
        simp only [zipWith3, List.length_cons, ih]
        omega

theorem neg_one_mul_zipWith (lp adv : List ℚ) :
    List.zipWith (· * ·) (lp.map fun y => -1 * y) adv
      = List.zipWith (fun li ai => -(li * ai)) lp adv := by
  induction lp generalizing adv with
  | nil => simp
  | cons a t ih =>
    cases adv with
    | nil => simp
    | cons c d =>
      simp only [List.map_cons, List.zipWith_cons_cons, ih, List.cons.injEq,
        and_true]
      ring

theorem neg_mul_zipWith3 (w lp adv : List ℚ) :
    List.zipWith (· * ·) (List.zipWith (· * ·) (w.map Neg.neg) lp) adv
      = zipWith3 (fun wi li ai => -(wi * li * ai)) w lp adv := by
  induction w generalizing lp adv with
  | nil => cases lp <;> cases adv <;> simp [zipWith3]
  | cons a t ih =>
    cases lp with
    | nil => cases adv <;> simp [zipWith3]
    | cons b u =>
      cases adv with
      | nil => simp [zipWith3]
      | cons c v =>
        simp only [List.map_cons, List.zipWith_cons_cons, zipWith3, ih,
          List.cons.injEq, and_true]
        ring

/-- Characterization of a successful on-policy `train` call. -/
theorem train_on_ok (o : Oracle) (s : TrainerState)
    (ti : PreprocessedRankingInput) (r b lp : List ℚ)
    (hr : ti.slate_reward = some r)
    (hb : o.baselineForward s.baselineParams ti.netInput = b)
    (hlp : o.policyLogProbs s.policyParams ti.netInput = lp)
    (hlen_b : b.length = r.length)
    (hlen_lp : r.length = lp.length)
    (hB : ti.float_features.length ≠ 0)
    (hgrad : o.logProbsRequiresGrad = true) :
    train o true s ti =
      (Except.ok
        { log_probs := lp
          advantage := List.zipWith (· - ·) r b
          rl_loss := 1 / (ti.float_features.length : ℚ) *
            (List.zipWith (fun li ai => -(li * ai)) lp
              (List.zipWith (· - ·) r b)).sum
          baseline_loss := 1 / (ti.float_features.length : ℚ) *
            ((List.zipWith (· - ·) b r).map fun x => x ^ 2).sum },
       { baselineParams := o.baselineUpdate s.baselineParams ti.netInput r
         policyParams := o.policyUpdate s.policyParams ti.netInput [1]
           (List.zipWith (· - ·) r b)
         minibatch := s.minibatch + 1
         baselineOptSteps := s.baselineOptSteps + 1
         rlOptSteps := s.rlOptSteps + 1 }) := by
  have hpp : (baselineOptStep o s ti.netInput r).policyParams = s.policyParams :=
    rfl
  have hsub1 : tsub b r = some (List.zipWith (· - ·) b r) :=
    broadcast2_length_eq _ hlen_b
  have hsub2 : tsub r b = some (List.zipWith (· - ·) r b) :=
    broadcast2_length_eq _ hlen_b.symm
  have hmul1 : tmul ([(1 : ℚ)].map Neg.neg) lp
      = some (lp.map fun y => -1 * y) :=
    broadcast2_singleton_left _ _ _
  have hlen_adv : (lp.map fun y => (-1 : ℚ) * y).length
      = (List.zipWith (· - ·) r b).length := by
    simp [hlen_b.symm, ← hlen_lp]
  have hmul2 : tmul (lp.map fun y => -1 * y) (List.zipWith (· - ·) r b)
      = some (List.zipWith (fun li ai => -(li * ai)) lp
          (List.zipWith (· - ·) r b)) := by
    rw [show tmul (lp.map fun y => -1 * y) (List.zipWith (· - ·) r b)
        = some (List.zipWith (· * ·) (lp.map fun y => -1 * y)
            (List.zipWith (· - ·) r b)) from broadcast2_length_eq _ hlen_adv,
      neg_one_mul_zipWith]
  simp only [train, hr, hb, if_neg hB, hsub1, finishTrain, hmul1, hsub2,
    hmul2, hpp, hlp, hlen_b, hlen_lp, and_self, if_true, hgrad, if_pos,
    rlOptStep, baselineOptStep]

/-- Characterization of a successful off-policy `train` call. -/
theorem train_off_ok (o : Oracle) (s : TrainerState)
    (ti : PreprocessedRankingInput) (r b lp p : List ℚ)
    (hr : ti.slate_reward = some r)
    (hb : o.baselineForward s.baselineParams ti.netInput = b)
    (hlp : o.policyLogProbs s.policyParams ti.netInput = lp)
    (hp : ti.tgt_out_probs = some p)
    (hlen_b : b.length = r.length)
    (hlen_lp : r.length = lp.length)
    (hlen_p : p.length = lp.length)
    (hB : ti.float_features.length ≠ 0)
    (hgrad : o.logProbsRequiresGrad = true) :
    train o false s ti =
      (Except.ok
        { log_probs := lp
          advantage := List.zipWith (· - ·) r b
          rl_loss := 1 / (ti.float_features.length : ℚ) *
            (zipWith3 (fun wi li ai => -(wi * li * ai))
              (importanceWeights o lp p) lp (List.zipWith (· - ·) r b)).sum
          baseline_loss := 1 / (ti.float_features.length : ℚ) *
            ((List.zipWith (· - ·) b r).map fun x => x ^ 2).sum },
       { baselineParams := o.baselineUpdate s.baselineParams ti.netInput r
         policyParams := o.policyUpdate s.policyParams ti.netInput
           (importanceWeights o lp p) (List.zipWith (· - ·) r b)
         minibatch := s.minibatch + 1
         baselineOptSteps := s.baselineOptSteps + 1
         rlOptSteps := s.rlOptSteps + 1 }) := by
  have hpp : (baselineOptStep o s ti.netInput r).policyParams = s.policyParams :=
    rfl
  have hsub1 : tsub b r = some (List.zipWith (· - ·) b r) :=
    broadcast2_length_eq _ hlen_b
  have hsub2 : tsub r b = some (List.zipWith (· - ·) r b) :=
    broadcast2_length_eq _ hlen_b.symm
  have hw : tdiv (lp.map o.pexp) p = some (importanceWeights o lp p) := by
    rw [show tdiv (lp.map o.pexp) p
        = some (List.zipWith (· / ·) (lp.map o.pexp) p) from
        broadcast2_length_eq _ (by simp [hlen_p]),
      List.zipWith_map_left]
    rfl
  have hlen_w : (importanceWeights o lp p).length = lp.length := by
    simp [importanceWeights, hlen_p]
  have hmul1 : tmul ((importanceWeights o lp p).map Neg.neg) lp
      = some (List.zipWith (· * ·) ((importanceWeights o lp p).map Neg.neg) lp) :=
    broadcast2_length_eq _ (by simp [hlen_w])
  have hmul2 : tmul
      (List.zipWith (· * ·) ((importanceWeights o lp p).map Neg.neg) lp)
      (List.zipWith (· - ·) r b)
      = some (zipWith3 (fun wi li ai => -(wi * li * ai))
          (importanceWeights o lp p) lp (List.zipWith (· - ·) r b)) := by
    rw [show tmul
        (List.zipWith (· * ·) ((importanceWeights o lp p).map Neg.neg) lp)
        (List.zipWith (· - ·) r b)
        = some (List.zipWith (· * ·)
            (List.zipWith (· * ·) ((importanceWeights o lp p).map Neg.neg) lp)
            (List.zipWith (· - ·) r b)) from
        broadcast2_length_eq _ (by simp [hlen_w, hlen_b.symm, ← hlen_lp]),
      neg_mul_zipWith3]
  simp only [train, hr, hb, if_neg hB, hsub1, finishTrain, hp, hw, hmul1,
    hsub2, hmul2, hpp, hlp, hlen_b, hlen_lp, and_self, if_true, hgrad,
    if_pos, Bool.false_eq_true, if_false, rlOptStep, baselineOptStep]

/-- A `train` call on a batch whose `slate_reward` length differs from the
batch dimension, with networks producing one value per episode: it fails
with the shape assertion after the baseline optimizer stepped when the
shapes broadcast, and with a broadcasting shape error before any optimizer
step otherwise. -/
theorem train_reward_len_mismatch (o : Oracle) (onp : Bool) (s : TrainerState)
    (ti : PreprocessedRankingInput) (r b : List ℚ)
    (hr : ti.slate_reward = some r)
    (hb : o.baselineForward s.baselineParams ti.netInput = b)
    (hblen : b.length = ti.float_features.length)
    (hneq : r.length ≠ ti.float_features.length)
    (hB : ti.float_features.length ≠ 0) :
    train o onp s ti =
      (Except.error (if r.length = 1 ∨ ti.float_features.length = 1
          then PyErr.assertionError else PyErr.shapeError),
       if r.length = 1 ∨ ti.float_features.length = 1
          then baselineOptStep o s ti.netInput r else s) := by
  have hbne : ¬ b.length = r.length := by
    rw [hblen]; exact fun h => hneq h.symm
  have hcond : ¬ (b.length = r.length ∧ r.length =
      (o.policyLogProbs (baselineOptStep o s ti.netInput r).policyParams
        ti.netInput).length) := fun h => hbne h.1
  by_cases hc : r.length = 1 ∨ ti.float_features.length = 1
  · rw [if_pos hc, if_pos hc]
    rcases hc with h1 | h1
    · have hbne1 : ¬ b.length = 1 := by
        rw [hblen]; intro h; exact hneq (h1 ▸ h.symm)
      have hsub : tsub b r = some (b.map fun x => x - r.headD 0) := by
        simp [tsub, broadcast2, hbne, h1, hbne1]
      simp only [train, hr, if_neg hB, hb, hsub, if_neg hcond]
    · have hb1 : b.length = 1 := by rw [hblen, h1]
      have hr1 : ¬ r.length = 1 := by rw [← h1]; exact hneq
      have hr1s : ¬ (1 = r.length) := fun h => hr1 h.symm
      have hsub : tsub b r = some (r.map fun y => b.headD 0 - y) := by
        simp [tsub, broadcast2, hbne, hr1, hr1s, hb1]
      simp only [train, hr, if_neg hB, hb, hsub, if_neg hcond]
  · rw [if_neg hc, if_neg hc]
    push_neg at hc
    have hb1 : ¬ b.length = 1 := by rw [hblen]; exact hc.2
    have hsub : tsub b r = none := by
      simp [tsub, broadcast2, hbne, hc.1, hb1]
    simp only [train, hr, if_neg hB, hb, hsub]

/-- A `train` call with the trainer off-policy and `tgt_out_probs = None`
reaches the importance-weight division and fails there with a `TypeError`,
after the baseline optimizer has been stepped. -/
theorem train_missing_probs (o : Oracle) (s : TrainerState)
    (ti : PreprocessedRankingInput) (r b lp : List ℚ)
    (hr : ti.slate_reward = some r)
    (hb : o.baselineForward s.baselineParams ti.netInput = b)
    (hlp : o.policyLogProbs s.policyParams ti.netInput = lp)
    (hnone : ti.tgt_out_probs = none)
    (hlen_b : b.length = r.length)
    (hlen_lp : r.length = lp.length)
    (hB : ti.float_features.length ≠ 0)
    (hgrad : o.logProbsRequiresGrad = true) :
    train o false s ti =
      (Except.error PyErr.typeError, baselineOptStep o s ti.netInput r) := by
  have hpp : (baselineOptStep o s ti.netInput r).policyParams = s.policyParams :=
    rfl
  have hsub1 : tsub b r = some (List.zipWith (· - ·) b r) :=
    broadcast2_length_eq _ hlen_b
  simp only [train, hr, hb, if_neg hB, hsub1, hpp, hlp, hlen_b, hlen_lp,
    and_self, if_true, hgrad, if_pos, Bool.false_eq_true, if_false, hnone]

/-- The step counter after a `train` call: incremented exactly when the call
returned normally, untouched by every failing path. -/
theorem train_minibatch (o : Oracle) (onp : Bool) (s : TrainerState)
    (ti : PreprocessedRankingInput) :
    ((train o onp s ti).2).minibatch =
      if isOk (train o onp s ti).1 then s.minibatch + 1 else s.minibatch := by
  have h : (∃ res, (train o onp s ti).1 = Except.ok res ∧
        ((train o onp s ti).2).minibatch = s.minibatch + 1) ∨
      (∃ e, (train o onp s ti).1 = Except.error e ∧
        ((train o onp s ti).2).minibatch = s.minibatch) := by
    simp only [train, finishTrain]
    repeat' split
    all_goals first
      | exact Or.inl ⟨_, rfl, rfl⟩
      | exact Or.inr ⟨_, rfl, rfl⟩
  rcases h with ⟨res, h1, h2⟩ | ⟨e, h1, h2⟩ <;> rw [h1, h2] <;> simp [isOk]

/-- The baseline parameters after a `train` call are a function of the prior
baseline parameters and the batch alone: they are written once, by the
baseline optimizer step, or not at all when the call fails before it. -/
theorem train_baselineParams (o : Oracle) (onp : Bool) (s : TrainerState)
    (ti : PreprocessedRankingInput) :
    (train o onp s ti).2.baselineParams =
      match ti.slate_reward with
      | none => s.baselineParams
      | some r =>
        if ti.float_features.length = 0 then s.baselineParams
        else
          match tsub (o.baselineForward s.baselineParams ti.netInput) r with
          | none => s.baselineParams
          | some _ => o.baselineUpdate s.baselineParams ti.netInput r := by
  simp only [train, finishTrain]
  repeat' split
  all_goals rfl

/-- The policy parameters after a `train` call are either untouched or
written once by the policy optimizer's own update, from their prior value. -/
theorem train_policyParams (o : Oracle) (onp : Bool) (s : TrainerState)
    (ti : PreprocessedRankingInput) :
    (train o onp s ti).2.policyParams = s.policyParams ∨
      ∃ w a, (train o onp s ti).2.policyParams
        = o.policyUpdate s.policyParams ti.netInput w a := by
  simp only [train, finishTrain]
  repeat' split
  all_goals first
    | exact Or.inl rfl
    | exact Or.inr ⟨_, _, rfl⟩

/-! Concrete collaborators and batches used to instantiate the theorems. -/

/-- A concrete oracle: the baseline net reads each episode's first feature,
the policy net assigns log-probability `-1` to every episode, `exp` of any
log-probability is `1/2`, and each optimizer update shifts its own
parameters by a constant. -/
def oW : Oracle :=
  { baselineForward := fun _ inp => inp.float_features.map fun row => row.headD 0
    policyLogProbs := fun _ inp => inp.float_features.map fun _ => (-1 : ℚ)
    logProbsRequiresGrad := true
    pexp := fun _ => 1/2
    baselineUpdate := fun p _ _ => p.map (· + 1)
    policyUpdate := fun p _ _ _ => p.map (· + 2) }

/-- A freshly constructed trainer. -/
def sW : TrainerState := initTrainer [0] [0]

/-- A well-formed two-episode batch. -/
def tiW : PreprocessedRankingInput :=
  { float_features := [[1], [2]]
    tgt_seq := [[0], [0]]
    slate_reward := some [3, 5]
    tgt_out_probs := some [1/4, 1/2] }

/-- A one-episode batch matching the spec's worked off-policy example:
behavior probability `0.25` and `exp(log_prob) = 1/2` under `oW`. -/
def tiOne : PreprocessedRankingInput :=
  { float_features := [[1]]
    tgt_seq := [[0]]
    slate_reward := some [3]
    tgt_out_probs := some [1/4] }

/-- `tiW` with a `slate_reward` of length 1 against batch dimension 2. -/
def tiShort : PreprocessedRankingInput :=
  { tiW with slate_reward := some [3] }

/-- `tiW` with `tgt_out_probs = None`. -/
def tiNoProbs : PreprocessedRankingInput :=
  { tiW with tgt_out_probs := none }

/-- `tiW` with `slate_reward = None`. -/
def tiNoReward : PreprocessedRankingInput :=
  { tiW with slate_reward := none }

/-! The claims. -/

/-- C8: a batch with `slate_reward = None` makes `train` fail with the
`PreconditionError` assertion (`assert reward is not None`) deterministically,
under both on-policy and off-policy configuration, with the trainer state —
in particular both optimizers' observable state and the step counter —
exactly unchanged. -/
theorem missing_reward_raises_precondition (o : Oracle) (onp : Bool)
    (s : TrainerState) (ti : PreprocessedRankingInput)
    (h : ti.slate_reward = none) :
    train o onp s ti = (Except.error PyErr.assertionError, s) := by
  simp [train, h]

/-- Witness for C8 at a concrete batch, in both configurations. -/
theorem missing_reward_raises_precondition_witness :
    train oW true sW tiNoReward = (Except.error PyErr.assertionError, sW) ∧
    train oW false sW tiNoReward = (Except.error PyErr.assertionError, sW) :=
  ⟨missing_reward_raises_precondition oW true sW tiNoReward rfl,
   missing_reward_raises_precondition oW false sW tiNoReward rfl⟩

/-- C7: the step counter `minibatch` starts at 0 at construction, is
incremented by exactly 1 per successful `train` call, is unchanged by any
failing call, and hence never decreases. -/
theorem step_counter_spec :
    (∀ bp pp, (initTrainer bp pp).minibatch = 0) ∧
    (∀ (o : Oracle) (onp : Bool) (s : TrainerState)
        (ti : PreprocessedRankingInput),
      ((train o onp s ti).2).minibatch =
        if isOk (train o onp s ti).1 then s.minibatch + 1 else s.minibatch) ∧
    (∀ (o : Oracle) (onp : Bool) (s : TrainerState)
        (ti : PreprocessedRankingInput),
      s.minibatch ≤ ((train o onp s ti).2).minibatch) := by
  refine ⟨fun _ _ => rfl, fun o onp s ti => train_minibatch o onp s ti,
    fun o onp s ti => ?_⟩
  rw [train_minibatch]
  split <;> omega

/-- C5: for every batch satisfying the preconditions, the returned
`baseline_loss` is the mean over the batch of the squared difference between
the (squeezed) per-episode baseline output and the observed slate reward. -/
theorem baseline_loss_is_mse (o : Oracle) (onp : Bool) (s : TrainerState)
    (ti : PreprocessedRankingInput) (r b lp : List ℚ)
    (hr : ti.slate_reward = some r)
    (hb : o.baselineForward s.baselineParams ti.netInput = b)
    (hlp : o.policyLogProbs s.policyParams ti.netInput = lp)
    (hlen_b : b.length = r.length)
    (hlen_lp : r.length = lp.length)
    (hrB : r.length = ti.float_features.length)
    (hB : ti.float_features.length ≠ 0)
    (hgrad : o.logProbsRequiresGrad = true)
    (hprobs : onp = true ∨ (onp = false ∧
      ∃ p, ti.tgt_out_probs = some p ∧ p.length = lp.length)) :
    baselineLossOf (train o onp s ti) =
      some (listMean ((List.zipWith (· - ·) b r).map fun x => x ^ 2)) := by
  have hlen : (((List.zipWith (· - ·) b r).map fun x => x ^ 2)).length
      = ti.float_features.length := by
    simp [hlen_b, hrB]
  have hmean : 1 / (ti.float_features.length : ℚ) *
      ((List.zipWith (· - ·) b r).map fun x => x ^ 2).sum
      = listMean ((List.zipWith (· - ·) b r).map fun x => x ^ 2) := by
    rw [listMean, hlen, one_div_mul_eq_div]
  rcases hprobs with h | ⟨h, p, hp, hlen_p⟩
  · subst h
    rw [train_on_ok o s ti r b lp hr hb hlp hlen_b hlen_lp hB hgrad]
    simp only [baselineLossOf, hmean]
  · subst h
    rw [train_off_ok o s ti r b lp p hr hb hlp hp hlen_b hlen_lp hlen_p hB
      hgrad]
    simp only [baselineLossOf, hmean]

/-- Witness for C5 at a concrete batch. -/
theorem baseline_loss_is_mse_witness :
    baselineLossOf (train oW true sW tiW) =
      some (listMean ((List.zipWith (· - ·) [1, 2] [3, 5]).map fun x => x ^ 2)) :=
  baseline_loss_is_mse oW true sW tiW [3, 5] [1, 2] [-1, -1] rfl rfl
    rfl rfl rfl rfl (by decide) rfl (Or.inl rfl)

/-- C6: the `advantage` returned by a successful `train` call equals
`reward - b` element-wise, where `b` is the baseline forward pass of this
same call (evaluated on the baseline parameters the call started with),
detached. -/
theorem advantage_identity (o : Oracle) (onp : Bool) (s : TrainerState)
    (ti : PreprocessedRankingInput) (r b lp : List ℚ)
    (hr : ti.slate_reward = some r)
    (hb : o.baselineForward s.baselineParams ti.netInput = b)
    (hlp : o.policyLogProbs s.policyParams ti.netInput = lp)
    (hlen_b : b.length = r.length)
    (hlen_lp : r.length = lp.length)
    (hB : ti.float_features.length ≠ 0)
    (hgrad : o.logProbsRequiresGrad = true)
    (hprobs : onp = true ∨ (onp = false ∧
      ∃ p, ti.tgt_out_probs = some p ∧ p.length = lp.length)) :
    advantageOf (train o onp s ti) = some (List.zipWith (· - ·) r b) := by
  rcases hprobs with h | ⟨h, p, hp, hlen_p⟩
  · subst h
    rw [train_on_ok o s ti r b lp hr hb hlp hlen_b hlen_lp hB hgrad]
    rfl
  · subst h
    rw [train_off_ok o s ti r b lp p hr hb hlp hp hlen_b hlen_lp hlen_p hB
      hgrad]
    rfl

/-- Witness for C6 at a concrete batch. -/
theorem advantage_identity_witness :
    advantageOf (train oW false sW tiW) =
      some (List.zipWith (· - ·) [3, 5] [1, 2]) :=
  advantage_identity oW false sW tiW [3, 5] [1, 2] [-1, -1] rfl rfl
    rfl rfl rfl (by decide) rfl (Or.inr ⟨rfl, [1/4, 1/2], rfl, rfl⟩)

/-- C3: when the trainer is on-policy, the importance weight is the constant
`1.0` tensor, bypassing the batch's behavior probabilities: two calls on
batches that differ only in `tgt_out_probs` return identical results (so in
particular identical `rl_loss` and identical `advantage`), and the returned
`rl_loss` is the weight-one REINFORCE loss. -/
theorem onpolicy_ignores_behavior_probs :
    (∀ (o : Oracle) (s : TrainerState) (ti1 ti2 : PreprocessedRankingInput),
      ti1.float_features = ti2.float_features → ti1.tgt_seq = ti2.tgt_seq →
      ti1.slate_reward = ti2.slate_reward →
      train o true s ti1 = train o true s ti2) ∧
    (∀ (o : Oracle) (s : TrainerState) (ti : PreprocessedRankingInput)
        (r b lp : List ℚ),
      ti.slate_reward = some r →
      o.baselineForward s.baselineParams ti.netInput = b →
      o.policyLogProbs s.policyParams ti.netInput = lp →
      b.length = r.length → r.length = lp.length →
      ti.float_features.length ≠ 0 → o.logProbsRequiresGrad = true →
      rlLossOf (train o true s ti) =
        some (1 / (ti.float_features.length : ℚ) *
          (List.zipWith (fun li ai => -(li * ai)) lp
            (List.zipWith (· - ·) r b)).sum)) := by
  constructor
  · intro o s ti1 ti2 h1 h2 h3
    obtain ⟨f1, t1, r1, p1⟩ := ti1
    obtain ⟨f2, t2, r2, p2⟩ := ti2
    simp only at h1 h2 h3
    subst h1; subst h2; subst h3
    rfl
  · intro o s ti r b lp hr hb hlp h1 h2 hB hg
    rw [train_on_ok o s ti r b lp hr hb hlp h1 h2 hB hg]
    rfl

/-- Witness for C3: deleting the behavior probabilities from a concrete
on-policy batch changes nothing, and the concrete `rl_loss` has importance
weight one. -/
theorem onpolicy_ignores_behavior_probs_witness :
    train oW true sW tiW = train oW true sW tiNoProbs ∧
    rlLossOf (train oW true sW tiW) =
      some (1 / (tiW.float_features.length : ℚ) *
        (List.zipWith (fun li ai => -(li * ai)) [-1, -1]
          (List.zipWith (· - ·) [3, 5] [1, 2])).sum) :=
  ⟨onpolicy_ignores_behavior_probs.1 oW sW tiW tiNoProbs rfl rfl rfl,
   onpolicy_ignores_behavior_probs.2 oW sW tiW [3, 5] [1, 2] [-1, -1] rfl rfl
     rfl rfl rfl (by decide) rfl⟩

/-- C1: for every off-policy call, the per-episode importance weight is
`exp(log_probs.detach()) / tgt_out_probs` and the returned `rl_loss` is the
mean over the batch of `-w_i * log_prob_i * (reward_i - b_i)`; in
particular, for a batch of size 1 with `exp(log_prob) = 1/2` and behavior
probability `1/4`, the importance weight is `2` and
`rl_loss = -(2 * log_prob * (reward - baseline))`. -/
theorem offpolicy_importance_rl_loss :
    (∀ (o : Oracle) (s : TrainerState) (ti : PreprocessedRankingInput)
        (r b lp p : List ℚ),
      ti.slate_reward = some r →
      o.baselineForward s.baselineParams ti.netInput = b →
      o.policyLogProbs s.policyParams ti.netInput = lp →
      ti.tgt_out_probs = some p →
      b.length = r.length → r.length = lp.length → p.length = lp.length →
      r.length = ti.float_features.length →
      ti.float_features.length ≠ 0 →
      o.logProbsRequiresGrad = true →
      rlLossOf (train o false s ti) =
        some (reinforceLoss (importanceWeights o lp p) lp
          (List.zipWith (· - ·) r b))) ∧
    (∀ (o : Oracle) (s : TrainerState) (ti : PreprocessedRankingInput)
        (l r0 b0 : ℚ),
      ti.slate_reward = some [r0] →
      o.baselineForward s.baselineParams ti.netInput = [b0] →
      o.policyLogProbs s.policyParams ti.netInput = [l] →
      ti.tgt_out_probs = some [(1 : ℚ)/4] →
      o.pexp l = 1/2 →
      ti.float_features.length = 1 →
      o.logProbsRequiresGrad = true →
      importanceWeights o [l] [(1 : ℚ)/4] = [2] ∧
      rlLossOf (train o false s ti) = some (-(2 * l * (r0 - b0)))) := by
  have gen : ∀ (o : Oracle) (s : TrainerState) (ti : PreprocessedRankingInput)
      (r b lp p : List ℚ),
      ti.slate_reward = some r →
      o.baselineForward s.baselineParams ti.netInput = b →
      o.policyLogProbs s.policyParams ti.netInput = lp →
      ti.tgt_out_probs = some p →
      b.length = r.length → r.length = lp.length → p.length = lp.length →
      r.length = ti.float_features.length →
      ti.float_features.length ≠ 0 →
      o.logProbsRequiresGrad = true →
      rlLossOf (train o false s ti) =
        some (reinforceLoss (importanceWeights o lp p) lp
          (List.zipWith (· - ·) r b)) := by
    intro o s ti r b lp p hr hb hlp hp h1 h2 h3 hrB hB hg
    rw [train_off_ok o s ti r b lp p hr hb hlp hp h1 h2 h3 hB hg]
    simp only [rlLossOf]
    congr 1
    rw [reinforceLoss, listMean]
    have hlen : (zipWith3 (fun wi li ai => -(wi * li * ai))
        (importanceWeights o lp p) lp (List.zipWith (· - ·) r b)).length
        = ti.float_features.length := by
      rw [zipWith3_length]
      simp only [importanceWeights, List.length_zipWith]
      omega
    rw [hlen, one_div_mul_eq_div]
  refine ⟨gen, ?_⟩
  intro o s ti l r0 b0 hr hb hlp hp hexp hB1 hg
  have hw : importanceWeights o [l] [(1 : ℚ)/4] = [2] := by
    simp only [importanceWeights, List.zipWith_cons_cons, List.zipWith_nil_right,
      hexp]
    norm_num
  refine ⟨hw, ?_⟩
  have h := gen o s ti [r0] [b0] [l] [(1 : ℚ)/4] hr hb hlp hp rfl rfl rfl
    (by rw [hB1]; rfl) (by rw [hB1]; exact one_ne_zero) hg
  rw [h, hw]
  congr 1
  simp only [reinforceLoss, zipWith3, listMean, List.zipWith_cons_cons,
    List.zipWith_nil_right, List.sum_cons, List.sum_nil, List.length_cons,
    List.length_nil]
  norm_num

/-- Witness for C1 at the spec's worked example, with `exp(log_prob) = 1/2`
and behavior probability `1/4`. -/
theorem offpolicy_importance_rl_loss_witness :
    importanceWeights oW [(-1 : ℚ)] [(1 : ℚ)/4] = [2] ∧
    rlLossOf (train oW false sW tiOne) =
      some (-(2 * (-1 : ℚ) * (3 - 1))) :=
  offpolicy_importance_rl_loss.2 oW sW tiOne (-1) 3 1 rfl rfl rfl rfl rfl rfl
    rfl

/-- C9: the baseline optimizer step writes only the baseline network's
parameters and the policy optimizer step writes only the policy network's
parameters (each optimizer is bound at construction to one parameter set):
the baseline phase leaves the policy parameters and policy-optimizer state
untouched, the policy phase leaves the baseline parameters and
baseline-optimizer state untouched, the final baseline parameters of a call
depend only on the prior baseline parameters (never on the policy
parameters), and the policy parameters are only ever changed by their own
optimizer's update. -/
theorem optimizer_frame_spec :
    (∀ (o : Oracle) (s : TrainerState) (inp : NetInput) (reward : List ℚ),
      (baselineOptStep o s inp reward).policyParams = s.policyParams ∧
      (baselineOptStep o s inp reward).rlOptSteps = s.rlOptSteps) ∧
    (∀ (o : Oracle) (s : TrainerState) (inp : NetInput) (w a : List ℚ),
      (rlOptStep o s inp w a).baselineParams = s.baselineParams ∧
      (rlOptStep o s inp w a).baselineOptSteps = s.baselineOptSteps) ∧
    (∀ (o : Oracle) (onp : Bool) (s1 s2 : TrainerState)
        (ti : PreprocessedRankingInput),
      s1.baselineParams = s2.baselineParams →
      (train o onp s1 ti).2.baselineParams
        = (train o onp s2 ti).2.baselineParams) ∧
    (∀ (o : Oracle) (onp : Bool) (s : TrainerState)
        (ti : PreprocessedRankingInput),
      (train o onp s ti).2.policyParams = s.policyParams ∨
        ∃ w a, (train o onp s ti).2.policyParams
          = o.policyUpdate s.policyParams ti.netInput w a) := by
  refine ⟨fun o s inp reward => ⟨rfl, rfl⟩, fun o s inp w a => ⟨rfl, rfl⟩,
    fun o onp s1 s2 ti h => ?_, train_policyParams⟩
  rw [train_baselineParams, train_baselineParams, h]

/-- Witness for C9: concrete phase steps leave the other network's state
alone, and two trainers sharing baseline parameters but with different
policy parameters and counters end a call with the same baseline
parameters. -/
theorem optimizer_frame_spec_witness :
    ((baselineOptStep oW sW tiW.netInput [3, 5]).policyParams = sW.policyParams ∧
      (baselineOptStep oW sW tiW.netInput [3, 5]).rlOptSteps = sW.rlOptSteps) ∧
    ((rlOptStep oW sW tiW.netInput [1] [2, 3]).baselineParams = sW.baselineParams ∧
      (rlOptStep oW sW tiW.netInput [1] [2, 3]).baselineOptSteps
        = sW.baselineOptSteps) ∧
    (train oW true sW tiW).2.baselineParams =
      (train oW true { sW with policyParams := [9], minibatch := 5 } tiW).2.baselineParams :=
  ⟨optimizer_frame_spec.1 oW sW tiW.netInput [3, 5],
   optimizer_frame_spec.2.1 oW sW tiW.netInput [1] [2, 3],
   optimizer_frame_spec.2.2.1 oW true sW
     { sW with policyParams := [9], minibatch := 5 } tiW rfl⟩

/-- C10: the baseline value used for the policy loss and for the returned
advantage is the forward pass computed on the baseline parameters the call
started with — before the baseline optimizer step of the same call — and it
is not re-evaluated after the baseline regression update: the returned
advantage is `reward - b` with `b` the pre-update prediction, and the policy
optimizer's update receives that same pre-update `b`. -/
theorem policy_uses_preupdate_baseline :
    (∀ (o : Oracle) (s : TrainerState) (ti : PreprocessedRankingInput)
        (r b lp : List ℚ),
      ti.slate_reward = some r →
      o.baselineForward s.baselineParams ti.netInput = b →
      o.policyLogProbs s.policyParams ti.netInput = lp →
      b.length = r.length → r.length = lp.length →
      ti.float_features.length ≠ 0 → o.logProbsRequiresGrad = true →
      advantageOf (train o true s ti) = some (List.zipWith (· - ·) r b) ∧
      (train o true s ti).2.policyParams =
        o.policyUpdate s.policyParams ti.netInput [1]
          (List.zipWith (· - ·) r b)) ∧
    (∀ (o : Oracle) (s : TrainerState) (ti : PreprocessedRankingInput)
        (r b lp p : List ℚ),
      ti.slate_reward = some r →
      o.baselineForward s.baselineParams ti.netInput = b →
      o.policyLogProbs s.policyParams ti.netInput = lp →
      ti.tgt_out_probs = some p →
      b.length = r.length → r.length = lp.length → p.length = lp.length →
      ti.float_features.length ≠ 0 → o.logProbsRequiresGrad = true →
      advantageOf (train o false s ti) = some (List.zipWith (· - ·) r b) ∧
      (train o false s ti).2.policyParams =
        o.policyUpdate s.policyParams ti.netInput (importanceWeights o lp p)
          (List.zipWith (· - ·) r b)) := by
  constructor
  · intro o s ti r b lp hr hb hlp h1 h2 hB hg
    rw [train_on_ok o s ti r b lp hr hb hlp h1 h2 hB hg]
    exact ⟨rfl, rfl⟩
  · intro o s ti r b lp p hr hb hlp hp h1 h2 h3 hB hg
    rw [train_off_ok o s ti r b lp p hr hb hlp hp h1 h2 h3 hB hg]
    exact ⟨rfl, rfl⟩

/-- Witness for C10 at a concrete batch, in both configurations. -/
theorem policy_uses_preupdate_baseline_witness :
    (advantageOf (train oW true sW tiW) =
        some (List.zipWith (· - ·) [3, 5] [1, 2]) ∧
      (train oW true sW tiW).2.policyParams =
        oW.policyUpdate sW.policyParams tiW.netInput [1]
          (List.zipWith (· - ·) [3, 5] [1, 2])) ∧
    (advantageOf (train oW false sW tiW) =
        some (List.zipWith (· - ·) [3, 5] [1, 2]) ∧
      (train oW false sW tiW).2.policyParams =
        oW.policyUpdate sW.policyParams tiW.netInput
          (importanceWeights oW [-1, -1] [1/4, 1/2])
          (List.zipWith (· - ·) [3, 5] [1, 2])) :=
  ⟨policy_uses_preupdate_baseline.1 oW sW tiW [3, 5] [1, 2] [-1, -1] rfl rfl
     rfl rfl rfl (by decide) rfl,
   policy_uses_preupdate_baseline.2 oW sW tiW [3, 5] [1, 2] [-1, -1]
     [1/4, 1/2] rfl rfl rfl rfl rfl rfl rfl (by decide) rfl⟩

/-- C2 is refuted as stated: with batch dimension 2 and a `slate_reward` of
length 1 the shapes broadcast, the baseline loss is computed, and the
baseline optimizer is stepped; only then does the shape assertion fail.  So
the `PreconditionError` is raised after optimizer state has changed, not
before. -/
theorem reward_shape_mismatch_counterexample :
    (train oW true sW tiShort).1 = Except.error PyErr.assertionError ∧
    (train oW true sW tiShort).2.baselineOptSteps = 1 ∧
    sW.baselineOptSteps = 0 :=
  ⟨rfl, rfl, rfl⟩

/-- C2 (amended): a batch whose `slate_reward` length differs from the batch
dimension (networks producing one value per episode, batch nonempty) makes
`train` fail before the policy optimizer is stepped; when one of the two
lengths is 1 the shapes broadcast, and the failure is the shape-assertion
`PreconditionError`, raised after the baseline optimizer has already been
stepped; otherwise the element-wise subtraction in the baseline loss raises
a (non-assertion) shape error before either optimizer is stepped. -/
theorem reward_shape_mismatch_amended (o : Oracle) (onp : Bool)
    (s : TrainerState) (ti : PreprocessedRankingInput) (r b : List ℚ)
    (hr : ti.slate_reward = some r)
    (hb : o.baselineForward s.baselineParams ti.netInput = b)
    (hblen : b.length = ti.float_features.length)
    (hneq : r.length ≠ ti.float_features.length)
    (hB : ti.float_features.length ≠ 0) :
    train o onp s ti =
      (Except.error (if r.length = 1 ∨ ti.float_features.length = 1
          then PyErr.assertionError else PyErr.shapeError),
       if r.length = 1 ∨ ti.float_features.length = 1
          then baselineOptStep o s ti.netInput r else s) :=
  train_reward_len_mismatch o onp s ti r b hr hb hblen hneq hB

/-- Witness for the amended C2 at the concrete broadcastable mismatch. -/
theorem reward_shape_mismatch_amended_witness :
    train oW true sW tiShort =
      (Except.error PyErr.assertionError,
       baselineOptStep oW sW tiShort.netInput [3]) := by
  have h := reward_shape_mismatch_amended oW true sW tiShort [3] [1, 2] rfl
    rfl rfl (by decide) (by decide)
  simpa [tiShort, tiW] using h

/-- C4 is refuted as stated: at a concrete off-policy call with
`tgt_out_probs = None`, the raised error is the `TypeError` from dividing a
tensor by `None`, not the `PreconditionError` the claim requires. -/
theorem missing_probs_counterexample :
    (train oW false sW tiNoProbs).1 = Except.error PyErr.typeError ∧
    PyErr.typeError ≠ PyErr.assertionError :=
  ⟨rfl, by decide⟩

/-- C4 (amended): every off-policy call on a batch with
`tgt_out_probs = None` fails with a `TypeError` raised by dividing the
exponentiated log-probabilities by `None` — not with a `PreconditionError` —
fatal to the current call; the baseline optimizer has been stepped by then,
while the policy optimizer and the step counter are untouched. -/
theorem missing_probs_amended (o : Oracle) (s : TrainerState)
    (ti : PreprocessedRankingInput) (r b lp : List ℚ)
    (hr : ti.slate_reward = some r)
    (hb : o.baselineForward s.baselineParams ti.netInput = b)
    (hlp : o.policyLogProbs s.policyParams ti.netInput = lp)
    (hnone : ti.tgt_out_probs = none)
    (hlen_b : b.length = r.length)
    (hlen_lp : r.length = lp.length)
    (hB : ti.float_features.length ≠ 0)
    (hgrad : o.logProbsRequiresGrad = true) :
    train o false s ti =
      (Except.error PyErr.typeError, baselineOptStep o s ti.netInput r) ∧
    PyErr.typeError ≠ PyErr.assertionError :=
  ⟨train_missing_probs o s ti r b lp hr hb hlp hnone hlen_b hlen_lp hB hgrad,
   by decide⟩

/-- Witness for the amended C4 at a concrete batch. -/
theorem missing_probs_amended_witness :
    train oW false sW tiNoProbs =
      (Except.error PyErr.typeError,
       baselineOptStep oW sW tiNoProbs.netInput [3, 5]) ∧
    PyErr.typeError ≠ PyErr.assertionError :=
  missing_probs_amended oW sW tiNoProbs [3, 5] [1, 2] [-1, -1] rfl rfl rfl
    rfl rfl rfl (by decide) rfl

end Seq2Slate
